import Mathlib

/-!
Shallow embedding of the `account.check.deposit` model from
`account_check_deposit/models/account_check_deposit.py`.

Monetary amounts are modelled as rationals.  Records referenced through
many2one fields are inlined as structures; a many2one that can be empty is an
`Option`.  Fallible methods return `Except DepositError`; a `.error` result
models an exception that aborts the enclosing transaction, so no write
performed by the method survives.
-/

namespace AccountCheckDeposit

/-- A `res.currency` record: database id and display name. -/
structure Currency where
  id : Nat
  name : String
deriving DecidableEq, Repr

/-- A `res.company` record, with the fields the module reads. -/
structure Company where
  id : Nat
  currency_id : Currency
  display_name : String
  account_journal_payment_debit_account_id : Option Nat
deriving DecidableEq, Repr

/-- An `account.payment.method.line` record on a journal:
`payment_method_id.code` and the optional `payment_account_id`. -/
structure PaymentMethodLine where
  payment_method_code : String
  payment_account_id : Option Nat
deriving DecidableEq, Repr

/-- An `account.journal` record, with the fields the module reads. -/
structure Journal where
  id : Nat
  inbound_payment_method_line_ids : List PaymentMethodLine
deriving DecidableEq, Repr

/-- An existing `account.move.line` representing one received check. -/
structure MoveLine where
  id : Nat
  debit : ℚ
  credit : ℚ
  amount_currency : ℚ
  currency_id : Option Currency
  account_id : Nat
  partner_id : Option Nat
  ref : Option String
  reconciled : Bool
  check_deposit_id : Option Nat
  company_id : Nat
  parent_state : String
deriving DecidableEq, Repr

/-- The values dict used to create a new move line
(`_prepare_move_line_vals` / `_prepare_counterpart_move_lines_vals`). -/
structure MoveLineVals where
  name : Option String
  debit : ℚ
  credit : ℚ
  account_id : Nat
  partner_id : Option Nat
  currency_id : Option Currency
  amount_currency : ℚ
deriving DecidableEq, Repr

/-- An `account.move` record created by `validate_deposit`. -/
structure Move where
  journal_id : Nat
  date : Nat
  ref : String
  company_id : Nat
  state : String
  line_ids : List MoveLineVals
deriving DecidableEq, Repr

/-- An `account.check.deposit` record.  `in_hand_check_account_id` is the
stored computed field (the manual inbound payment account of the check
journal). -/
structure Deposit where
  id : Nat
  name : String
  deposit_date : Nat
  currency_id : Currency
  state : String
  move_id : Option Move
  company_id : Company
  journal_id : Journal
  bank_journal_id : Journal
  check_payment_ids : List MoveLine
  in_hand_check_account_id : Option Nat
deriving DecidableEq, Repr

/-- The exceptions raised by the module: `ValidationError`, `UserError`
and Python `AssertionError`. -/
inductive DepositError where
  | validationError (msg : String)
  | userError (msg : String)
  | assertionError (msg : String)
deriving DecidableEq, Repr

/-- Sum of `debit` over a list of move lines. -/
def sumDebit (ls : List MoveLine) : ℚ := (ls.map MoveLine.debit).sum

/-- Sum of `amount_currency` over a list of move lines. -/
def sumAmountCurrency (ls : List MoveLine) : ℚ :=
  (ls.map MoveLine.amount_currency).sum

/-- The lines of a world of move lines attached to deposit `depId`
(the `check_deposit_id` inverse relation, i.e. the `read_group` domain
`check_deposit_id in self.ids` restricted to one deposit). -/
def linesOfDeposit (world : List MoveLine) (depId : Nat) : List MoveLine :=
  world.filter (fun l => l.check_deposit_id == some depId)

/-- One group returned by the `read_group` call in `_compute_check_deposit`. -/
structure RGEntry where
  debit : ℚ
  amount_currency : ℚ
  count : Nat
deriving DecidableEq, Repr

/-- The `read_group` on `account.move.line` grouped by `check_deposit_id`,
restricted to one deposit id: `none` when the group is empty (SQL GROUP BY
yields no row), otherwise the aggregated sums and the row count. -/
def read_group_check_deposit (world : List MoveLine) (depId : Nat) :
    Option RGEntry :=
  let ls := linesOfDeposit world depId
  if ls.isEmpty then none
  else some { debit := sumDebit ls, amount_currency := sumAmountCurrency ls,
              count := ls.length }

/-- `_compute_check_deposit` for a single deposit: returns the recomputed
`(total_amount, check_count)`.  When the deposit id is absent from the
grouped data, the `mapped_data.get` defaults give `(0, 0)`. -/
def _compute_check_deposit (world : List MoveLine) (d : Deposit) : ℚ × Nat :=
  match read_group_check_deposit world d.id with
  | some e =>
      (if d.company_id.currency_id.id ≠ d.currency_id.id then e.amount_currency
       else e.debit, e.count)
  | none => (0, 0)

/-- The message of the `ValidationError` raised by `_check_deposit`,
built from the offending check line's debit amount and reference, its
currency name and the deposit currency name. -/
def checkCurrencyErrorMsg (amount : ℚ) (ref check_currency deposit_currency :
    String) : String :=
  "The check with amount " ++ toString amount ++ " and reference " ++ ref ++
    " is in currency " ++ check_currency ++
    " but the deposit is in currency " ++ deposit_currency ++ "."

/-- Does the line's currency differ from the deposit's currency?
(Odoo recordset comparison `line.currency_id != deposit_currency`,
which compares by database id; an empty currency never equals the
required deposit currency.) -/
def currencyMismatch (d : Deposit) (l : MoveLine) : Bool :=
  l.currency_id.map Currency.id != some d.currency_id.id

/-- The `@api.constrains` method `_check_deposit` for one deposit:
raises on the first attached line whose currency differs from the
deposit currency. -/
def _check_deposit (d : Deposit) : Except DepositError Unit :=
  match d.check_payment_ids.find? (currencyMismatch d) with
  | some l =>
      .error (.validationError (checkCurrencyErrorMsg l.debit (l.ref.getD "")
        ((l.currency_id.map Currency.name).getD "False") d.currency_id.name))
  | none => .ok ()

/-- The message of the `UserError` raised by `unlink` on a done deposit. -/
def unlinkErrorMsg (nm : String) : String :=
  "The deposit " ++ nm ++
    " is in valid state, so you must cancel it before deleting it."

/-- `unlink` on a recordset of deposits: raises a `UserError` naming the
first deposit in done state; otherwise delegates to the default deletion
(`.ok ()` models `super().unlink()` succeeding, i.e. every record of the
batch deleted; `.error` models the exception aborting the transaction
before any deletion happens). -/
def unlink (deposits : List Deposit) : Except DepositError Unit :=
  match deposits.find? (fun d => d.state == "done") with
  | some d => .error (.userError (unlinkErrorMsg d.name))
  | none => .ok ()

/-- `backtodraft` for a single deposit.  Returns the updated deposit and,
when a move existed, a snapshot of that move as it was at the moment of its
`unlink` (after the `button_draft` call when it was posted) — the second
component witnesses that a posted move is unposted before being deleted. -/
def backtodraft_one (d : Deposit) : Deposit × Option Move :=
  match d.move_id with
  | some move =>
      let move2 := if move.state = "posted" then { move with state := "draft" }
                   else move
      ({ d with
          state := "draft"
          move_id := none
          check_payment_ids := d.check_payment_ids.map (fun l =>
            if l.reconciled then { l with reconciled := false } else l) },
       some move2)
  | none => ({ d with state := "draft" }, none)

/-- `_prepare_account_move_vals`: the header of the move to create. -/
def _prepare_account_move_vals (d : Deposit) : Move :=
  { journal_id := d.journal_id.id, date := d.deposit_date,
    ref := "Check Deposit " ++ d.name, company_id := d.company_id.id,
    state := "draft", line_ids := [] }

/-- The values dict built by `_prepare_move_line_vals` when the assertion
`line.debit > 0` passes. -/
def offsetVals (l : MoveLine) : MoveLineVals :=
  { name := l.ref.map (fun r => "Check Ref. " ++ r),
    credit := l.debit, debit := 0,
    account_id := l.account_id, partner_id := l.partner_id,
    currency_id := l.currency_id,
    amount_currency := l.amount_currency * (-1) }

/-- `_prepare_move_line_vals`: asserts `line.debit > 0` (an
`AssertionError`, not a user-facing error, when it fails), then returns the
offsetting line values. -/
def _prepare_move_line_vals (l : MoveLine) : Except DepositError MoveLineVals :=
  if 0 < l.debit then .ok (offsetVals l)
  else .error (.assertionError "Debit must have a value")

/-- The first inbound payment method line of a journal whose method code is
"manual" and which carries a payment account (the `for`/`break` loop of
`_prepare_counterpart_move_lines_vals`). -/
def findManualPaymentAccount : List PaymentMethodLine → Option Nat
  | [] => none
  | l :: ls =>
      if l.payment_method_code = "manual" ∧ l.payment_account_id.isSome then
        l.payment_account_id
      else findManualPaymentAccount ls

/-- The message of the `UserError` raised when no outstanding receipts
account is configured. -/
def counterpartErrorMsg (company : String) : String :=
  "Missing Outstanding Receipts Account on the company " ++ company ++ "."

/-- The account chosen for the counterpart line: the destination bank
journal's manual inbound payment account when configured, else the
company's outstanding receipts account
(`account_journal_payment_debit_account_id`). -/
def counterpartAccount (d : Deposit) : Option Nat :=
  match findManualPaymentAccount
      d.bank_journal_id.inbound_payment_method_line_ids with
  | some a => some a
  | none => d.company_id.account_journal_payment_debit_account_id

/-- `_prepare_counterpart_move_lines_vals`: selects the counterpart
account (manual inbound payment account of the destination bank journal,
else the company's outstanding receipts account, else `UserError`). -/
def _prepare_counterpart_move_lines_vals (d : Deposit)
    (total_debit total_amount_currency : ℚ) :
    Except DepositError MoveLineVals :=
  match counterpartAccount d with
  | some a =>
      .ok { name := none, debit := total_debit, credit := 0,
            account_id := a, partner_id := none,
            currency_id := some d.currency_id,
            amount_currency := total_amount_currency }
  | none =>
      .error (.userError (counterpartErrorMsg d.company_id.display_name))

/-- `validate_deposit` for a single deposit: create the move, one
offsetting line per check, the counterpart line for the totals, post the
move, set the deposit to done with `move_id`, and reconcile each check
line (modelled by marking the attached lines reconciled). -/
def validate_deposit_one (d : Deposit) : Except DepositError Deposit := do
  let offset_lines ← d.check_payment_ids.mapM _prepare_move_line_vals
  let counter ← _prepare_counterpart_move_lines_vals d
      (sumDebit d.check_payment_ids) (sumAmountCurrency d.check_payment_ids)
  let move : Move :=
    { _prepare_account_move_vals d with
      line_ids := offset_lines ++ [counter], state := "posted" }
  return { d with
            state := "done"
            move_id := some move
            check_payment_ids :=
              d.check_payment_ids.map (fun l => { l with reconciled := true }) }

/-- Total debit of a created move. -/
def moveTotalDebit (m : Move) : ℚ := (m.line_ids.map MoveLineVals.debit).sum

/-- Total credit of a created move. -/
def moveTotalCredit (m : Move) : ℚ := (m.line_ids.map MoveLineVals.credit).sum

/-- The search domain of `get_all_checks`: a not-yet-deposited,
unreconciled, posted line with positive debit on the deposit company's
in-hand check account, in the deposit currency. -/
def eligibleCheck (d : Deposit) (l : MoveLine) : Bool :=
  l.company_id == d.company_id.id &&
  l.reconciled == false &&
  some l.account_id == d.in_hand_check_account_id &&
  decide (0 < l.debit) &&
  l.check_deposit_id == none &&
  l.currency_id.map Currency.id == some d.currency_id.id &&
  l.parent_state == "posted"

/-- Rendering of an optional account id in the `get_all_checks` error
message. -/
def accountDisplay : Option Nat → String
  | some a => toString a
  | none => "False"

/-- The message of the `UserError` raised by `get_all_checks` when no
eligible pending check exists. -/
def getAllChecksErrorMsg (d : Deposit) : String :=
  "There are no received checks in account " ++
    accountDisplay d.in_hand_check_account_id ++ " in currency " ++
    d.currency_id.name ++ " that are not already in this check deposit."

/-- `get_all_checks`: searches the world of move lines for eligible
pending checks; attaches them all to this deposit by writing their
`check_deposit_id`, or raises a `UserError` when none is found (in which
case nothing is written). -/
def get_all_checks (d : Deposit) (world : List MoveLine) :
    Except DepositError (List MoveLine) :=
  if (world.filter (eligibleCheck d)).isEmpty then
    .error (.userError (getAllChecksErrorMsg d))
  else
    .ok (world.map (fun l =>
      if eligibleCheck d l then { l with check_deposit_id := some d.id }
      else l))

/-- The done-state invariant of a deposit: a done deposit carries a
posted move and all its attached check lines are reconciled. -/
def depositInv (d : Deposit) : Prop :=
  d.state = "done" →
    ∃ m, d.move_id = some m ∧ m.state = "posted" ∧
      ∀ l ∈ d.check_payment_ids, l.reconciled = true

/-- One workflow transition on a deposit record: a successful
`validate_deposit`, a `backtodraft`, or a failed `unlink` (which leaves
the record unchanged). -/
inductive DStep : Deposit → Deposit → Prop where
  | validate (d d' : Deposit) : validate_deposit_one d = .ok d' → DStep d d'
  | back (d : Deposit) : DStep d (backtodraft_one d).1
  | unlinkFailed (d : Deposit) (e : DepositError) :
      unlink [d] = .error e → DStep d d

/-- Deposit states reachable from creation (a freshly created deposit is
in draft with no move; attaching check lines while draft is covered by
the arbitrary check lines of the created record) under the workflow
operations. -/
inductive Reachable : Deposit → Prop where
  | created (d : Deposit) : d.state = "draft" → d.move_id = none → Reachable d
  | step (d d' : Deposit) : Reachable d → DStep d d' → Reachable d'

/-! Concrete sample records used to instantiate the theorems. -/

/-- A sample currency. -/
def eur : Currency := { id := 1, name := "EUR" }

/-- A second sample currency. -/
def usd : Currency := { id := 2, name := "USD" }

/-- A sample company whose outstanding receipts account is configured. -/
def coEx : Company :=
  { id := 1, currency_id := eur, display_name := "Demo Co",
    account_journal_payment_debit_account_id := some 401 }

/-- A sample company with no outstanding receipts account. -/
def coBare : Company :=
  { id := 2, currency_id := eur, display_name := "Bare Co",
    account_journal_payment_debit_account_id := none }

/-- A manual inbound payment method line carrying a payment account. -/
def pmlManual : PaymentMethodLine :=
  { payment_method_code := "manual", payment_account_id := some 501 }

/-- A sample check journal. -/
def jrnEx : Journal := { id := 11, inbound_payment_method_line_ids := [pmlManual] }

/-- A sample destination bank journal with a manual payment account. -/
def bankJrnEx : Journal :=
  { id := 12, inbound_payment_method_line_ids := [pmlManual] }

/-- A bank journal with no manual inbound payment account. -/
def bankJrnBare : Journal := { id := 13, inbound_payment_method_line_ids := [] }

/-- A sample check payment line attached to deposit 1. -/
def chk1 : MoveLine :=
  { id := 101, debit := 100, credit := 0, amount_currency := 100,
    currency_id := some eur, account_id := 511, partner_id := some 7,
    ref := some "CHK1", reconciled := false, check_deposit_id := some 1,
    company_id := 1, parent_state := "posted" }

/-- A sample check payment line in another currency. -/
def chkUsd : MoveLine :=
  { id := 102, debit := 50, credit := 0, amount_currency := 55,
    currency_id := some usd, account_id := 511, partner_id := some 8,
    ref := some "CHK2", reconciled := false, check_deposit_id := some 1,
    company_id := 1, parent_state := "posted" }

/-- A pending check not attached to any deposit, eligible for
`get_all_checks` on `depEx`. -/
def chkPending : MoveLine :=
  { id := 103, debit := 75, credit := 0, amount_currency := 75,
    currency_id := some eur, account_id := 511, partner_id := some 9,
    ref := some "CHK3", reconciled := false, check_deposit_id := none,
    company_id := 1, parent_state := "posted" }

/-- A check payment line with a non-positive debit. -/
def chkBad : MoveLine :=
  { id := 104, debit := 0, credit := 0, amount_currency := 0,
    currency_id := some eur, account_id := 511, partner_id := some 9,
    ref := none, reconciled := false, check_deposit_id := some 1,
    company_id := 1, parent_state := "posted" }

/-- A sample draft deposit with one attached check. -/
def depEx : Deposit :=
  { id := 1, name := "DEP001", deposit_date := 20260101, currency_id := eur,
    state := "draft", move_id := none, company_id := coEx,
    journal_id := jrnEx, bank_journal_id := bankJrnEx,
    check_payment_ids := [chk1], in_hand_check_account_id := some 511 }

/-- The move created by `validate_deposit` on `depEx`. -/
def mvEx : Move :=
  { journal_id := 11, date := 20260101, ref := "Check Deposit DEP001",
    company_id := 1, state := "posted",
    line_ids :=
      [{ name := some "Check Ref. CHK1", debit := 0, credit := 100,
         account_id := 511, partner_id := some 7, currency_id := some eur,
         amount_currency := -100 },
       { name := none, debit := 100, credit := 0, account_id := 501,
         partner_id := none, currency_id := some eur,
         amount_currency := 100 }] }

/-- `depEx` after a successful `validate_deposit`. -/
def depExValidated : Deposit :=
  { depEx with
    state := "done"
    move_id := some mvEx
    check_payment_ids := [{ chk1 with reconciled := true }] }

/-- A sample posted move. -/
def mvPosted : Move :=
  { journal_id := 11, date := 20260101, ref := "Check Deposit DEP002",
    company_id := 1, state := "posted", line_ids := [] }

/-- A sample deposit in done state with a posted move and a reconciled
check. -/
def depDone : Deposit :=
  { depEx with
    id := 2
    name := "DEP002"
    state := "done"
    move_id := some mvPosted
    check_payment_ids := [{ chk1 with reconciled := true }] }

/-- A deposit whose bank journal has no manual payment account, so the
counterpart account falls back to the company account. -/
def depNoManual : Deposit := { depEx with bank_journal_id := bankJrnBare }

/-- A deposit with neither a manual payment account nor a company
outstanding receipts account. -/
def depNoAccount : Deposit :=
  { depEx with
    bank_journal_id := bankJrnBare
    company_id := coBare }

/-- A deposit with an attached check in a different currency. -/
def depMixed : Deposit :=
  { depEx with check_payment_ids := [chk1, chkUsd] }

/-! Helper lemmas. -/

theorem prepare_move_line_vals_pos (l : MoveLine) (h : 0 < l.debit) :
    _prepare_move_line_vals l = .ok (offsetVals l) := by
  simp [_prepare_move_line_vals, h]

theorem prepare_move_line_vals_nonpos (l : MoveLine) (h : ¬ 0 < l.debit) :
    _prepare_move_line_vals l =
      .error (.assertionError "Debit must have a value") := by
  simp [_prepare_move_line_vals, h]

theorem mapM_prepare_ok (ls : List MoveLine)
    (h : ∀ l ∈ ls, 0 < l.debit) :
    ls.mapM _prepare_move_line_vals = .ok (ls.map offsetVals) := by
  induction ls with
  | nil => rfl
  | cons a as ih =>
      have ha : 0 < a.debit := h a (List.mem_cons_self a as)
      have has : ∀ l ∈ as, 0 < l.debit :=
        fun l hl => h l (List.mem_cons_of_mem a hl)
      rw [List.mapM_cons, prepare_move_line_vals_pos a ha, ih has]
      rfl

theorem mapM_prepare_eq_ok (ls : List MoveLine) (vs : List MoveLineVals)
    (h : ls.mapM _prepare_move_line_vals = .ok vs) :
    vs = ls.map offsetVals := by
  induction ls generalizing vs with
  | nil =>
      simp only [List.mapM_nil] at h
      cases h
      rfl
  | cons a as ih =>
      rw [List.mapM_cons] at h
      cases hpa : _prepare_move_line_vals a with
      | error e => rw [hpa] at h; cases h
      | ok v =>
          rw [hpa] at h
          cases hps : as.mapM _prepare_move_line_vals with
          | error e =>
              rw [hps] at h
              cases h
          | ok vs2 =>
              rw [hps] at h
              have hv : v = offsetVals a := by
                by_cases hd : 0 < a.debit
                · rw [prepare_move_line_vals_pos a hd] at hpa
                  cases hpa
                  rfl
                · rw [prepare_move_line_vals_nonpos a hd] at hpa
                  cases hpa
              cases h
              rw [hv, ih vs2 hps, List.map_cons]

theorem counterpart_ok_shape (d : Deposit) (td tac : ℚ) (v : MoveLineVals)
    (h : _prepare_counterpart_move_lines_vals d td tac = .ok v) :
    ∃ a, counterpartAccount d = some a ∧
      v = { name := none, debit := td, credit := 0, account_id := a,
            partner_id := none, currency_id := some d.currency_id,
            amount_currency := tac } := by
  unfold _prepare_counterpart_move_lines_vals at h
  cases ha : counterpartAccount d with
  | none => rw [ha] at h; cases h
  | some a =>
      rw [ha] at h
      cases h
      exact ⟨a, rfl, rfl⟩

theorem counterpart_error_shape (d : Deposit) (td tac : ℚ) (e : DepositError)
    (h : _prepare_counterpart_move_lines_vals d td tac = .error e) :
    e = .userError (counterpartErrorMsg d.company_id.display_name) := by
  unfold _prepare_counterpart_move_lines_vals at h
  cases ha : counterpartAccount d with
  | none =>
      rw [ha] at h
      cases h
      rfl
  | some a => rw [ha] at h; cases h

theorem validate_ok_shape (d d' : Deposit)
    (h : validate_deposit_one d = .ok d') :
    ∃ c, _prepare_counterpart_move_lines_vals d (sumDebit d.check_payment_ids)
        (sumAmountCurrency d.check_payment_ids) = .ok c ∧
      d' = { d with
             state := "done"
             move_id := some { _prepare_account_move_vals d with
                               line_ids :=
                                 d.check_payment_ids.map offsetVals ++ [c]
                               state := "posted" }
             check_payment_ids := d.check_payment_ids.map
               (fun l => { l with reconciled := true }) } := by
  unfold validate_deposit_one at h
  cases hm : d.check_payment_ids.mapM _prepare_move_line_vals with
  | error e => rw [hm] at h; cases h
  | ok vs =>
      rw [hm] at h
      cases hc : _prepare_counterpart_move_lines_vals d
          (sumDebit d.check_payment_ids)
          (sumAmountCurrency d.check_payment_ids) with
      | error e =>
          rw [hc] at h
          cases h
      | ok c =>
          rw [hc] at h
          cases h
          exact ⟨c, rfl, by rw [mapM_prepare_eq_ok d.check_payment_ids vs hm]⟩

theorem validate_deposit_one_build (d : Deposit)
    (hpos : ∀ l ∈ d.check_payment_ids, 0 < l.debit) (a : Nat)
    (ha : counterpartAccount d = some a) :
    validate_deposit_one d =
      .ok { d with
            state := "done"
            move_id := some { _prepare_account_move_vals d with
                              line_ids :=
                                d.check_payment_ids.map offsetVals ++
                                  [{ name := none
                                     debit := sumDebit d.check_payment_ids
                                     credit := 0
                                     account_id := a
                                     partner_id := none
                                     currency_id := some d.currency_id
                                     amount_currency :=
                                       sumAmountCurrency d.check_payment_ids }]
                              state := "posted" }
            check_payment_ids := d.check_payment_ids.map
              (fun l => { l with reconciled := true }) } := by
  unfold validate_deposit_one
  rw [mapM_prepare_ok d.check_payment_ids hpos]
  unfold _prepare_counterpart_move_lines_vals
  rw [ha]
  rfl

theorem validate_depEx_eq : validate_deposit_one depEx = .ok depExValidated := by
  rw [validate_deposit_one_build depEx (by decide) 501 rfl]
  simp [depExValidated, depEx, mvEx, chk1, offsetVals, sumDebit,
    sumAmountCurrency, _prepare_account_move_vals, eur, jrnEx, coEx]

theorem sum_map_offset_debit (ls : List MoveLine) :
    (ls.map (fun l => (offsetVals l).debit)).sum = 0 := by
  induction ls with
  | nil => rfl
  | cons a as ih => simp [offsetVals, ih]

theorem sum_map_offset_credit (ls : List MoveLine) :
    (ls.map (fun l => (offsetVals l).credit)).sum = sumDebit ls := by
  induction ls with
  | nil => rfl
  | cons a as ih => simp [offsetVals, sumDebit, ih]

/-! Claim theorems. -/

/-- Claim C2: the recomputed `total_amount` equals the sum of `debit` over
the attached check lines when the deposit currency equals the company
currency and the sum of `amount_currency` otherwise, and `check_count`
equals the number of attached lines; this holds for any recomputation
(the compute method is a pure function of the current data), including
the empty case where both are 0.  The hypothesis states that the lines of
the world carrying this deposit's id are exactly its attached lines (the
one2many / inverse-field correspondence). -/
theorem compute_check_deposit_agg (world : List MoveLine) (d : Deposit)
    (h : linesOfDeposit world d.id = d.check_payment_ids) :
    _compute_check_deposit world d =
      (if d.company_id.currency_id.id = d.currency_id.id
       then sumDebit d.check_payment_ids
       else sumAmountCurrency d.check_payment_ids,
       d.check_payment_ids.length) := by
  unfold _compute_check_deposit read_group_check_deposit
  rw [h]
  cases hl : d.check_payment_ids with
  | nil => simp [sumDebit, sumAmountCurrency]
  | cons a as =>
      by_cases hc : d.company_id.currency_id.id = d.currency_id.id
      · simp [hc]
      · simp [hc]

/-- Claim C3: the `_check_deposit` constraint raises a validation error
exactly when some attached line's currency differs from the deposit
currency; the error message is built from an offending check's debit
amount, its reference, its currency name and the deposit's currency
name; when every attached line's currency matches, no error is raised. -/
theorem check_deposit_currency_constraint (d : Deposit) :
    ((∀ l ∈ d.check_payment_ids, currencyMismatch d l = false) →
      _check_deposit d = .ok ()) ∧
    (∀ l ∈ d.check_payment_ids, currencyMismatch d l = true →
      ∃ l0 ∈ d.check_payment_ids, currencyMismatch d l0 = true ∧
        _check_deposit d = .error (.validationError
          (checkCurrencyErrorMsg l0.debit (l0.ref.getD "")
            ((l0.currency_id.map Currency.name).getD "False")
            d.currency_id.name))) := by
  constructor
  · intro hall
    unfold _check_deposit
    have : d.check_payment_ids.find? (currencyMismatch d) = none := by
      rw [List.find?_eq_none]
      intro l hl
      rw [hall l hl]
      exact Bool.false_ne_true
    rw [this]
  · intro l hl hmis
    cases hf : d.check_payment_ids.find? (currencyMismatch d) with
    | none =>
        exact absurd hmis (by simpa using List.find?_eq_none.mp hf l hl)
    | some l0 =>
        refine ⟨l0, List.mem_of_find?_eq_some hf, List.find?_some hf, ?_⟩
        unfold _check_deposit
        rw [hf]

/-- Claim C5: after `backtodraft` the deposit is in draft with no move;
when a move existed, every attached check line is unreconciled and the
move was deleted after being unposted (the second component of
`backtodraft_one`, the move as it was at its deletion, is in draft state
whenever the original move was posted); a deposit with no move simply has
its state set to draft. -/
theorem backtodraft_resets (d : Deposit) :
    ((backtodraft_one d).1.state = "draft") ∧
    ((backtodraft_one d).1.move_id = none) ∧
    (∀ m, d.move_id = some m →
      (∀ l ∈ (backtodraft_one d).1.check_payment_ids, l.reconciled = false) ∧
      ∃ m2, (backtodraft_one d).2 = some m2 ∧
        (m.state = "posted" → m2.state = "draft")) ∧
    (d.move_id = none →
      (backtodraft_one d).1 = { d with state := "draft" } ∧
      (backtodraft_one d).2 = none) := by
  cases hm : d.move_id with
  | none =>
      refine ⟨?_, ?_, ?_, ?_⟩ <;>
        simp [backtodraft_one, hm]
  | some mv =>
      refine ⟨?_, ?_, ?_, ?_⟩
      · simp [backtodraft_one, hm]
      · simp [backtodraft_one, hm]
      · intro m hmeq
        injection hmeq with hmm
        subst hmm
        constructor
        · intro l hl
          simp only [backtodraft_one, hm] at hl
          obtain ⟨x, _, hx⟩ := List.mem_map.mp hl
          by_cases hr : x.reconciled
          · rw [if_pos hr] at hx
            rw [← hx]
          · rw [if_neg hr] at hx
            rw [← hx]
            exact Bool.not_eq_true x.reconciled |>.mp hr
        · refine ⟨if mv.state = "posted" then { mv with state := "draft" }
                  else mv, by simp [backtodraft_one, hm], ?_⟩
          intro hp
          rw [if_pos hp]
      · intro hnone
        exact Option.noConfusion hnone

/-- Claim C6: `unlink` on a deposit in done state raises the `UserError`
naming the deposit; on a draft deposit it delegates to the default
deletion and succeeds. -/
theorem unlink_done_blocked (d : Deposit) :
    (d.state = "done" →
      unlink [d] = .error (.userError (unlinkErrorMsg d.name))) ∧
    (d.state = "draft" → unlink [d] = .ok ()) := by
  constructor
  · intro h
    simp [unlink, h]
  · intro h
    simp [unlink, h]

/-- Claim C8: the counterpart move line's account is the destination bank
journal's manual inbound payment account when one is configured,
otherwise the company's outstanding receipts account; when neither is
configured, `_prepare_counterpart_move_lines_vals` fails with a
`UserError` naming the company. -/
theorem counterpart_account_choice (d : Deposit) (td tac : ℚ) :
    (∀ a, findManualPaymentAccount
        d.bank_journal_id.inbound_payment_method_line_ids = some a →
      _prepare_counterpart_move_lines_vals d td tac =
        .ok { name := none, debit := td, credit := 0, account_id := a,
              partner_id := none, currency_id := some d.currency_id,
              amount_currency := tac }) ∧
    (findManualPaymentAccount
        d.bank_journal_id.inbound_payment_method_line_ids = none →
      (∀ a, d.company_id.account_journal_payment_debit_account_id = some a →
        _prepare_counterpart_move_lines_vals d td tac =
          .ok { name := none, debit := td, credit := 0, account_id := a,
                partner_id := none, currency_id := some d.currency_id,
                amount_currency := tac }) ∧
      (d.company_id.account_journal_payment_debit_account_id = none →
        _prepare_counterpart_move_lines_vals d td tac =
          .error (.userError
            (counterpartErrorMsg d.company_id.display_name)))) := by
  constructor
  · intro a ha
    unfold _prepare_counterpart_move_lines_vals counterpartAccount
    rw [ha]
  · intro hnone
    constructor
    · intro a ha
      unfold _prepare_counterpart_move_lines_vals counterpartAccount
      rw [hnone, ha]
    · intro ha
      unfold _prepare_counterpart_move_lines_vals counterpartAccount
      rw [hnone, ha]

/-- Claim C9: `_prepare_move_line_vals` fails with the (non-user-facing)
assertion error whenever the check line's debit is not positive; and
under the precondition that every attached check's debit is positive,
`validate_deposit` can never fail with an assertion error — the failure
branch is unreachable. -/
theorem move_line_debit_assertion :
    (∀ l : MoveLine, l.debit ≤ 0 →
      _prepare_move_line_vals l =
        .error (.assertionError "Debit must have a value")) ∧
    (∀ d : Deposit, (∀ l ∈ d.check_payment_ids, 0 < l.debit) →
      ∀ msg, validate_deposit_one d ≠ .error (.assertionError msg)) := by
  constructor
  · intro l hl
    exact prepare_move_line_vals_nonpos l (not_lt.mpr hl)
  · intro d hpos msg hcontra
    unfold validate_deposit_one at hcontra
    rw [mapM_prepare_ok d.check_payment_ids hpos] at hcontra
    cases hc : _prepare_counterpart_move_lines_vals d
        (sumDebit d.check_payment_ids)
        (sumAmountCurrency d.check_payment_ids) with
    | ok c => rw [hc] at hcontra; cases hcontra
    | error e =>
        rw [hc] at hcontra
        have he := counterpart_error_shape d _ _ e hc
        cases hcontra
        cases he

/-- Claim C10: on a non-empty batch of deposits containing at least one
done deposit, `unlink` raises the `UserError` (naming a done deposit of
the batch) before delegating any deletion, so no deposit of the batch —
draft ones included — is deleted. -/
theorem unlink_batch_no_deletion (ds : List Deposit) (_hne : ds ≠ [])
    (hdone : ∃ d ∈ ds, d.state = "done") :
    ∃ d0 ∈ ds, d0.state = "done" ∧
      unlink ds = .error (.userError (unlinkErrorMsg d0.name)) := by
  obtain ⟨d, hd, hst⟩ := hdone
  cases hf : ds.find? (fun x => x.state == "done") with
  | none =>
      have := List.find?_eq_none.mp hf d hd
      simp [hst] at this
  | some d0 =>
      refine ⟨d0, List.mem_of_find?_eq_some hf, ?_, ?_⟩
      · have := List.find?_some hf
        simpa using this
      · unfold unlink
        rw [hf]

/-- Claim C1: a successful `validate_deposit` on a deposit with N
attached checks creates one move with N+1 lines: for each check one
offsetting line whose credit is the check's debit, whose debit is 0,
whose `amount_currency` is the negated check `amount_currency`, with the
same account, partner and currency, plus one counterpart line whose
debit is the sum of the checks' debits; the move's total debit equals
its total credit and the move is posted. -/
theorem validate_creates_balanced_move (d d' : Deposit)
    (h : validate_deposit_one d = .ok d') :
    ∃ m, d'.move_id = some m ∧ m.state = "posted" ∧
      m.line_ids.length = d.check_payment_ids.length + 1 ∧
      (∀ i (hi : i < d.check_payment_ids.length)
          (hj : i < m.line_ids.length),
        (m.line_ids.get ⟨i, hj⟩).credit =
          (d.check_payment_ids.get ⟨i, hi⟩).debit ∧
        (m.line_ids.get ⟨i, hj⟩).debit = 0 ∧
        (m.line_ids.get ⟨i, hj⟩).amount_currency =
          -(d.check_payment_ids.get ⟨i, hi⟩).amount_currency ∧
        (m.line_ids.get ⟨i, hj⟩).account_id =
          (d.check_payment_ids.get ⟨i, hi⟩).account_id ∧
        (m.line_ids.get ⟨i, hj⟩).partner_id =
          (d.check_payment_ids.get ⟨i, hi⟩).partner_id ∧
        (m.line_ids.get ⟨i, hj⟩).currency_id =
          (d.check_payment_ids.get ⟨i, hi⟩).currency_id) ∧
      (∃ c, m.line_ids.getLast? = some c ∧
        c.debit = sumDebit d.check_payment_ids ∧ c.credit = 0 ∧
        c.amount_currency = sumAmountCurrency d.check_payment_ids) ∧
      moveTotalDebit m = moveTotalCredit m := by
  obtain ⟨c, hc, hd'⟩ := validate_ok_shape d d' h
  obtain ⟨a, -, hceq⟩ := counterpart_ok_shape d _ _ c hc
  subst hd'
  refine ⟨_, rfl, rfl, ?_, ?_, ?_, ?_⟩
  · simp
  · intro i hi hj
    have hget : (d.check_payment_ids.map offsetVals ++ [c]).get
          ⟨i, by simpa using hj⟩ =
        offsetVals (d.check_payment_ids.get ⟨i, hi⟩) := by
      rw [List.get_append i (by simpa using hi), List.get_map]
    exact ⟨congrArg MoveLineVals.credit hget,
      congrArg MoveLineVals.debit hget,
      (congrArg MoveLineVals.amount_currency hget).trans (mul_neg_one _),
      congrArg MoveLineVals.account_id hget,
      congrArg MoveLineVals.partner_id hget,
      congrArg MoveLineVals.currency_id hget⟩
  · exact ⟨c, by simp, by rw [hceq], by rw [hceq], by rw [hceq]⟩
  · have hd2 : ((d.check_payment_ids.map offsetVals ++ [c]).map
        MoveLineVals.debit).sum = sumDebit d.check_payment_ids := by
      rw [List.map_append, List.sum_append, List.map_map, hceq]
      simpa [Function.comp_def] using sum_map_offset_debit d.check_payment_ids
    have hc2 : ((d.check_payment_ids.map offsetVals ++ [c]).map
        MoveLineVals.credit).sum = sumDebit d.check_payment_ids := by
      rw [List.map_append, List.sum_append, List.map_map, hceq]
      simpa [Function.comp_def] using sum_map_offset_credit d.check_payment_ids
    exact hd2.trans hc2.symm

/-- Claim C4: every deposit state reachable from creation under the
workflow operations satisfies the done-state invariant (`state = done`
implies `move_id` holds a posted move and every attached check line is
reconciled); a successful `validate_deposit` establishes the done state
and the invariant; and the only transition that leaves the done state is
`backtodraft`. -/
theorem done_deposit_invariant :
    (∀ d, Reachable d → depositInv d) ∧
    (∀ d d', validate_deposit_one d = .ok d' →
      d'.state = "done" ∧ depositInv d') ∧
    (∀ d d', DStep d d' → d.state = "done" → d'.state ≠ "done" →
      d' = (backtodraft_one d).1) := by
  have hval : ∀ d d', validate_deposit_one d = .ok d' →
      d'.state = "done" ∧ depositInv d' := by
    intro d d' h
    obtain ⟨c, hc, hd'⟩ := validate_ok_shape d d' h
    subst hd'
    refine ⟨rfl, fun _ => ⟨_, rfl, rfl, ?_⟩⟩
    intro l hl
    obtain ⟨x, -, hx⟩ := List.mem_map.mp hl
    rw [← hx]
  have hback : ∀ d, (backtodraft_one d).1.state = "draft" := by
    intro d
    cases hm : d.move_id <;> simp [backtodraft_one, hm]
  refine ⟨?_, hval, ?_⟩
  · intro d hr
    induction hr with
    | created d hs _ =>
        intro hdone
        rw [hs] at hdone
        exact absurd hdone (by decide)
    | step d d' hr hstep ih =>
        cases hstep with
        | validate _ h => exact (hval _ _ h).2
        | back =>
            intro hdone
            rw [hback d] at hdone
            exact absurd hdone (by decide)
        | unlinkFailed e h => exact ih
  · intro d d' hstep hdone hnd
    cases hstep with
    | validate _ h => exact absurd (hval _ _ h).1 hnd
    | back => rfl
    | unlinkFailed e h => exact absurd hdone hnd

/-- Claim C7: `get_all_checks` searches the world of move lines for the
not-yet-deposited, unreconciled, posted check lines with positive debit
in the company's in-hand-check account matching the deposit currency;
when at least one is found it attaches every found line to this deposit
by setting its `check_deposit_id`, leaving every other line unchanged;
when none is found it raises a `UserError` (the `.error` result models
the aborted transaction, so nothing is attached and all state is
unchanged). -/
theorem get_all_checks_attaches (d : Deposit) (world : List MoveLine) :
    ((∀ l ∈ world, eligibleCheck d l = false) →
      get_all_checks d world =
        .error (.userError (getAllChecksErrorMsg d))) ∧
    (∀ l0 ∈ world, eligibleCheck d l0 = true →
      ∃ world2, get_all_checks d world = .ok world2 ∧
        world2.length = world.length ∧
        ∀ i (hi : i < world.length) (hj : i < world2.length),
          world2.get ⟨i, hj⟩ =
            if eligibleCheck d (world.get ⟨i, hi⟩)
            then { world.get ⟨i, hi⟩ with check_deposit_id := some d.id }
            else world.get ⟨i, hi⟩) := by
  constructor
  · intro hall
    unfold get_all_checks
    rw [if_pos]
    rw [List.isEmpty_iff, List.filter_eq_nil]
    intro l hl
    rw [hall l hl]
    exact Bool.false_ne_true
  · intro l0 hl0 hel
    have hne : ¬ ((world.filter (eligibleCheck d)).isEmpty = true) := by
      rw [List.isEmpty_iff, List.filter_eq_nil]
      intro hcontra
      exact absurd hel (by simpa using hcontra l0 hl0)
    refine ⟨world.map (fun l =>
        if eligibleCheck d l then { l with check_deposit_id := some d.id }
        else l), ?_, by simp, ?_⟩
    · unfold get_all_checks
      rw [if_neg hne]
    · intro i hi hj
      rw [List.get_map]

/-! Witnesses: each claim theorem instantiated at concrete records. -/

/-- Witness for C1 at `depEx` (one attached check of debit 100). -/
theorem validate_creates_balanced_move_witness :
    ∃ m, depExValidated.move_id = some m ∧ m.state = "posted" ∧
      m.line_ids.length = depEx.check_payment_ids.length + 1 ∧
      (∀ i (hi : i < depEx.check_payment_ids.length)
          (hj : i < m.line_ids.length),
        (m.line_ids.get ⟨i, hj⟩).credit =
          (depEx.check_payment_ids.get ⟨i, hi⟩).debit ∧
        (m.line_ids.get ⟨i, hj⟩).debit = 0 ∧
        (m.line_ids.get ⟨i, hj⟩).amount_currency =
          -(depEx.check_payment_ids.get ⟨i, hi⟩).amount_currency ∧
        (m.line_ids.get ⟨i, hj⟩).account_id =
          (depEx.check_payment_ids.get ⟨i, hi⟩).account_id ∧
        (m.line_ids.get ⟨i, hj⟩).partner_id =
          (depEx.check_payment_ids.get ⟨i, hi⟩).partner_id ∧
        (m.line_ids.get ⟨i, hj⟩).currency_id =
          (depEx.check_payment_ids.get ⟨i, hi⟩).currency_id) ∧
      (∃ c, m.line_ids.getLast? = some c ∧
        c.debit = sumDebit depEx.check_payment_ids ∧ c.credit = 0 ∧
        c.amount_currency = sumAmountCurrency depEx.check_payment_ids) ∧
      moveTotalDebit m = moveTotalCredit m :=
  validate_creates_balanced_move depEx depExValidated validate_depEx_eq

/-- Witness for C2 with a world of two lines, one attached to `depEx`. -/
theorem compute_check_deposit_agg_witness :
    _compute_check_deposit [chk1, chkPending] depEx =
      (if depEx.company_id.currency_id.id = depEx.currency_id.id
       then sumDebit depEx.check_payment_ids
       else sumAmountCurrency depEx.check_payment_ids,
       depEx.check_payment_ids.length) :=
  compute_check_deposit_agg [chk1, chkPending] depEx (by decide)

/-- Witness for C3: `depEx` (all currencies match) passes the constraint;
`depMixed` (one USD check on an EUR deposit) is rejected. -/
theorem check_deposit_currency_constraint_witness :
    _check_deposit depEx = .ok () ∧
    (∃ l0 ∈ depMixed.check_payment_ids, currencyMismatch depMixed l0 = true ∧
      _check_deposit depMixed = .error (.validationError
        (checkCurrencyErrorMsg l0.debit (l0.ref.getD "")
          ((l0.currency_id.map Currency.name).getD "False")
          depMixed.currency_id.name))) :=
  ⟨(check_deposit_currency_constraint depEx).1 (by decide),
   (check_deposit_currency_constraint depMixed).2 chkUsd (by decide)
     (by decide)⟩

/-- Witness for C4: the deposit reached by validating `depEx` satisfies
the done-state invariant. -/
theorem done_deposit_invariant_witness :
    ∃ m, depExValidated.move_id = some m ∧ m.state = "posted" ∧
      ∀ l ∈ depExValidated.check_payment_ids, l.reconciled = true :=
  (done_deposit_invariant.1 depExValidated
    (Reachable.step depEx depExValidated (Reachable.created depEx rfl rfl)
      (DStep.validate depEx depExValidated validate_depEx_eq))) rfl

/-- Witness for C5: `backtodraft` on `depDone` (posted move, reconciled
check) and on `depEx` (no move). -/
theorem backtodraft_resets_witness :
    (∀ l ∈ (backtodraft_one depDone).1.check_payment_ids,
        l.reconciled = false) ∧
    (∃ m2, (backtodraft_one depDone).2 = some m2 ∧
      (mvPosted.state = "posted" → m2.state = "draft")) ∧
    ((backtodraft_one depEx).1 = { depEx with state := "draft" } ∧
      (backtodraft_one depEx).2 = none) :=
  ⟨((backtodraft_resets depDone).2.2.1 mvPosted rfl).1,
   ((backtodraft_resets depDone).2.2.1 mvPosted rfl).2,
   (backtodraft_resets depEx).2.2.2 rfl⟩

/-- Witness for C6: deleting done `depDone` is blocked, deleting draft
`depEx` succeeds. -/
theorem unlink_done_blocked_witness :
    unlink [depDone] = .error (.userError (unlinkErrorMsg depDone.name)) ∧
    unlink [depEx] = .ok () :=
  ⟨(unlink_done_blocked depDone).1 rfl, (unlink_done_blocked depEx).2 rfl⟩

/-- Witness for C7: a world with only an already-attached line raises the
user error; a world with one pending check gets it attached. -/
theorem get_all_checks_attaches_witness :
    get_all_checks depEx [chk1] =
      .error (.userError (getAllChecksErrorMsg depEx)) ∧
    (∃ world2, get_all_checks depEx [chkPending] = .ok world2 ∧
      world2.length = [chkPending].length ∧
      ∀ i (hi : i < [chkPending].length) (hj : i < world2.length),
        world2.get ⟨i, hj⟩ =
          if eligibleCheck depEx ([chkPending].get ⟨i, hi⟩)
          then { [chkPending].get ⟨i, hi⟩ with
                 check_deposit_id := some depEx.id }
          else [chkPending].get ⟨i, hi⟩) :=
  ⟨(get_all_checks_attaches depEx [chk1]).1 (by decide),
   (get_all_checks_attaches depEx [chkPending]).2 chkPending
     (List.mem_cons_self chkPending []) (by decide)⟩

/-- Witness for C8: the three account-selection branches at concrete
deposits. -/
theorem counterpart_account_choice_witness :
    _prepare_counterpart_move_lines_vals depEx 3 4 =
      .ok { name := none, debit := 3, credit := 0, account_id := 501,
            partner_id := none, currency_id := some depEx.currency_id,
            amount_currency := 4 } ∧
    _prepare_counterpart_move_lines_vals depNoManual 3 4 =
      .ok { name := none, debit := 3, credit := 0, account_id := 401,
            partner_id := none,
            currency_id := some depNoManual.currency_id,
            amount_currency := 4 } ∧
    _prepare_counterpart_move_lines_vals depNoAccount 3 4 =
      .error (.userError
        (counterpartErrorMsg depNoAccount.company_id.display_name)) :=
  ⟨(counterpart_account_choice depEx 3 4).1 501 rfl,
   ((counterpart_account_choice depNoManual 3 4).2 rfl).1 401 rfl,
   ((counterpart_account_choice depNoAccount 3 4).2 rfl).2 rfl⟩

/-- Witness for C9: the assertion fires on a zero-debit check; with all
debits positive (`depEx`), `validate_deposit` never raises an assertion
error. -/
theorem move_line_debit_assertion_witness :
    _prepare_move_line_vals chkBad =
      .error (.assertionError "Debit must have a value") ∧
    ∀ msg, validate_deposit_one depEx ≠ .error (.assertionError msg) :=
  ⟨move_line_debit_assertion.1 chkBad (by decide),
   move_line_debit_assertion.2 depEx (by decide)⟩

/-- Witness for C10: a batch holding a draft and a done deposit is
entirely blocked. -/
theorem unlink_batch_no_deletion_witness :
    ∃ d0 ∈ [depEx, depDone], d0.state = "done" ∧
      unlink [depEx, depDone] =
        .error (.userError (unlinkErrorMsg d0.name)) :=
  unlink_batch_no_deletion [depEx, depDone] (by decide)
    ⟨depDone, List.mem_cons_of_mem depEx (List.mem_cons_self depDone []),
     rfl⟩

end AccountCheckDeposit
